import Mathlib

/-!
Verification development for the Pellet Sales Management System (PyQt6).

The Python sources are shallowly embedded:
* values of the Python decimal module (context precision 10, rounding
  ROUND_HALF_EVEN, as set by getcontext().prec = 10 in data_processor.py)
  are modelled by their exact rational value; every arithmetic operation
  rounds its exact result to 10 significant digits, ties to even;
* Python date objects are modelled by (year, month, day) triples where a
  pure ordinal order suffices, and by integers (proleptic ordinals) where
  only comparison and day differences occur;
* the database and the wall clock are oracles passed as parameters;
* a Python function that catches every exception and returns a fallback is
  modelled as a total function on an Except-valued oracle result.
-/

/-! ### The decimal context: 10 significant digits, round half to even -/

/-- Fuel-driven base-10 logarithm on naturals (fuel at least n suffices). -/
def log10Fuel : ℕ → ℕ → ℕ
  | 0, _ => 0
  | fuel + 1, n => if n < 10 then 0 else log10Fuel fuel (n / 10) + 1

/-- Number of digits of n minus one: the unique k with 10 ^ k ≤ n < 10 ^ (k+1),
for n ≠ 0. -/
def natLog10 (n : ℕ) : ℕ := log10Fuel n n

/-- Round a rational to the nearest integer, ties to the even neighbour
(the ROUND_HALF_EVEN mode of the Python decimal module). -/
def roundHalfEven (q : ℚ) : ℤ :=
  if q - ⌊q⌋ < 1/2 then ⌊q⌋
  else if q - ⌊q⌋ > 1/2 then ⌊q⌋ + 1
  else if Even ⌊q⌋ then ⌊q⌋ else ⌊q⌋ + 1

/-- Decimal exponent of a nonzero rational: the unique e with
10 ^ e ≤ |x| < 10 ^ (e + 1). -/
def decExp (x : ℚ) : ℤ :=
  if (10 : ℚ) ^ ((natLog10 x.num.natAbs : ℤ) - (natLog10 x.den : ℤ)) ≤ |x| then
    (natLog10 x.num.natAbs : ℤ) - (natLog10 x.den : ℤ)
  else (natLog10 x.num.natAbs : ℤ) - (natLog10 x.den : ℤ) - 1

/-- Round a rational to 10 significant decimal digits, half to even: the value
produced by any arithmetic operation of the decimal context with
getcontext().prec = 10. -/
def decRound (x : ℚ) : ℚ :=
  if x = 0 then 0
  else
    (if x > 0 then 1 else -1) * (roundHalfEven (|x| / (10 : ℚ) ^ (decExp x - 9)) : ℚ)
      * (10 : ℚ) ^ (decExp x - 9)

/-- Decimal addition under the 10-digit context. -/
def decAdd (a b : ℚ) : ℚ := decRound (a + b)

/-- Decimal subtraction under the 10-digit context. -/
def decSub (a b : ℚ) : ℚ := decRound (a - b)

/-- Decimal multiplication under the 10-digit context. -/
def decMul (a b : ℚ) : ℚ := decRound (a * b)

/-- Decimal division under the 10-digit context (both operands nonzero in
every use below; the zero-divisor exception paths are modelled at each call
site). -/
def decDiv (a b : ℚ) : ℚ := decRound (a / b)

/-! ### Python string helpers (ASCII upper, strip, substring) -/

/-- Python str.upper restricted to the ASCII range (all denylist keywords are
ASCII, and non-ASCII characters can never become ASCII under upper-casing, so
keyword containment agrees with the Python behaviour). -/
def pyUpper (s : String) : String := ⟨s.data.map Char.toUpper⟩

/-- Whitespace test used by Python str.strip on the characters that occur in
this application. -/
def isPySpace (c : Char) : Bool := c = ' ' || c = '\t' || c = '\n' || c = '\r'

/-- Python str.strip: drop whitespace from both ends. -/
def pyStrip (s : String) : String :=
  ⟨((s.data.dropWhile isPySpace).reverse.dropWhile isPySpace).reverse⟩

/-- Auxiliary substring scan: does the needle occur at some position of the
haystack. -/
def subAux (needle : List Char) : List Char → Bool
  | [] => needle.isEmpty
  | c :: rest => needle.isPrefixOf (c :: rest) || subAux needle rest

/-- The Python membership test, needle in haystack, on strings. -/
def containsSub (hay needle : String) : Bool := subAux needle.data hay.data

/-! ### Data model shared by the query builder and the data processor -/

/-- A Python datetime.date, as produced by QDate.toPyDate in the search
dialog: a plain (year, month, day) triple. -/
structure PyDate where
  year : ℤ
  month : ℕ
  day : ℕ
deriving DecidableEq

/-- A value placed in the parameter tuple handed to the database driver:
either a string filter value or a date object. -/
inductive SqlParam where
  | str (s : String)
  | date (d : PyDate)
deriving DecidableEq

/-- The filter dictionary built by AdvancedSearchDialog.perform_search:
start_date and end_date are date objects (absent keys modelled as none),
the three lists hold strings, document_number is the raw text of the input
field. -/
structure SearchFilters where
  start_date : Option PyDate
  end_date : Option PyDate
  branches : List String
  document_types : List String
  products : List String
  document_number : String
deriving DecidableEq

/-! ### DatabaseQueryBuilder (advanced_search_system.py) -/

/-- The base SELECT of DatabaseQueryBuilder (advanced_search_system.py,
constructor). -/
def baseQuery : String :=
  "\n            SELECT VentaID, Articulo, PuntoVenta, Fecha, TipoDocumento, \n                   NumeroDocumento, Unidad, KilosTotales, ValorUnitario, \n                   Descuento, Neto, IVA, Total, NetoPorKG, Pago, \n                   NumeroComprobante, MedioPago\n            FROM VentasDiarias\n        "

/-- Comma-joined %s placeholders for an IN clause of n values. -/
def placeholders (n : ℕ) : String :=
  String.intercalate (", ") (List.replicate n ("%s"))

/-- Date-range conditions of build_search_query: a single equality when both
dates are present and equal, a BETWEEN when they differ, nothing otherwise. -/
def dateConditions (f : SearchFilters) : List String × List SqlParam :=
  match f.start_date, f.end_date with
  | some s, some e =>
    if s = e then (["Fecha = %s"], [SqlParam.date s])
    else (["Fecha BETWEEN %s AND %s"], [SqlParam.date s, SqlParam.date e])
  | _, _ => ([], [])

/-- Branch filter of build_search_query. -/
def branchConditions (f : SearchFilters) : List String × List SqlParam :=
  if f.branches ≠ [] then
    (["PuntoVenta IN (" ++ placeholders f.branches.length ++ ")"],
      f.branches.map SqlParam.str)
  else ([], [])

/-- Document-type filter of build_search_query; skipped entirely when the
literal Todo occurs in the list. -/
def docTypeConditions (f : SearchFilters) : List String × List SqlParam :=
  if f.document_types ≠ [] ∧ "Todo" ∉ f.document_types then
    (["TipoDocumento IN (" ++ placeholders f.document_types.length ++ ")"],
      f.document_types.map SqlParam.str)
  else ([], [])

/-- Product filter of build_search_query; skipped entirely when the literal
Todo occurs in the list. -/
def productConditions (f : SearchFilters) : List String × List SqlParam :=
  if f.products ≠ [] ∧ "Todo" ∉ f.products then
    (["Articulo IN (" ++ placeholders f.products.length ++ ")"],
      f.products.map SqlParam.str)
  else ([], [])

/-- Exact document-number filter of build_search_query (value stripped, then
tested for truthiness). -/
def docNumberConditions (f : SearchFilters) : List String × List SqlParam :=
  if pyStrip f.document_number ≠ "" then
    (["NumeroDocumento = %s"], [SqlParam.str (pyStrip f.document_number)])
  else ([], [])

/-- DatabaseQueryBuilder.build_search_query: the SQL text together with the
parameter tuple (the query-cache side effect and the logging are omitted;
the try body is pure and cannot raise in this model). -/
def build_search_query (f : SearchFilters) : String × List SqlParam :=
  ((baseQuery ++ " WHERE "
      ++ (if (dateConditions f).1 ++ (branchConditions f).1 ++ (docTypeConditions f).1
            ++ (productConditions f).1 ++ (docNumberConditions f).1 = [] then "1=1"
          else String.intercalate (" AND ")
            ((dateConditions f).1 ++ (branchConditions f).1 ++ (docTypeConditions f).1
              ++ (productConditions f).1 ++ (docNumberConditions f).1))
      ++ " ORDER BY Fecha DESC, VentaID DESC"),
    (dateConditions f).2 ++ (branchConditions f).2 ++ (docTypeConditions f).2
      ++ (productConditions f).2 ++ (docNumberConditions f).2)

/-- The shape of a filter object in the sense of the specification claim:
which filters are present and how long the lists are. -/
def claimShape (f : SearchFilters) : Bool × Bool × ℕ × ℕ × ℕ × Bool :=
  (f.start_date.isSome, f.end_date.isSome, f.branches.length,
    f.document_types.length, f.products.length, decide (pyStrip f.document_number ≠ ""))

/-- The full shape actually determining the SQL text: presence and lengths
plus equality of the two dates and occurrence of the literal Todo in the two
lists. -/
structure QueryShape where
  hasDates : Bool
  eqDates : Bool
  nBranches : ℕ
  nDocTypes : ℕ
  todoDocTypes : Bool
  nProducts : ℕ
  todoProducts : Bool
  hasDocNumber : Bool
deriving DecidableEq

/-- Extract the full query shape from a filter object. -/
def extShape (f : SearchFilters) : QueryShape where
  hasDates := f.start_date.isSome && f.end_date.isSome
  eqDates := match f.start_date, f.end_date with
    | some s, some e => decide (s = e)
    | _, _ => false
  nBranches := f.branches.length
  nDocTypes := f.document_types.length
  todoDocTypes := decide ("Todo" ∈ f.document_types)
  nProducts := f.products.length
  todoProducts := decide ("Todo" ∈ f.products)
  hasDocNumber := decide (pyStrip f.document_number ≠ "")

/-- The SQL text as a function of the full query shape alone. -/
def sqlOfShape (sh : QueryShape) : String :=
  baseQuery ++ " WHERE "
    ++ (if (if sh.hasDates then (if sh.eqDates then ["Fecha = %s"] else ["Fecha BETWEEN %s AND %s"]) else [])
          ++ (if sh.nBranches ≠ 0 then ["PuntoVenta IN (" ++ placeholders sh.nBranches ++ ")"] else [])
          ++ (if sh.nDocTypes ≠ 0 ∧ ¬ sh.todoDocTypes = true then ["TipoDocumento IN (" ++ placeholders sh.nDocTypes ++ ")"] else [])
          ++ (if sh.nProducts ≠ 0 ∧ ¬ sh.todoProducts = true then ["Articulo IN (" ++ placeholders sh.nProducts ++ ")"] else [])
          ++ (if sh.hasDocNumber then ["NumeroDocumento = %s"] else []) = [] then "1=1"
        else String.intercalate (" AND ")
          ((if sh.hasDates then (if sh.eqDates then ["Fecha = %s"] else ["Fecha BETWEEN %s AND %s"]) else [])
            ++ (if sh.nBranches ≠ 0 then ["PuntoVenta IN (" ++ placeholders sh.nBranches ++ ")"] else [])
            ++ (if sh.nDocTypes ≠ 0 ∧ ¬ sh.todoDocTypes = true then ["TipoDocumento IN (" ++ placeholders sh.nDocTypes ++ ")"] else [])
            ++ (if sh.nProducts ≠ 0 ∧ ¬ sh.todoProducts = true then ["Articulo IN (" ++ placeholders sh.nProducts ++ ")"] else [])
            ++ (if sh.hasDocNumber then ["NumeroDocumento = %s"] else [])))
    ++ " ORDER BY Fecha DESC, VentaID DESC"

/-- SQL keyword denylist of DatabaseQueryBuilder.validate_input. -/
def dangerous_keywords : List String :=
  ["DROP", "DELETE", "UPDATE", "INSERT", "EXEC", "EXECUTE",
    "SCRIPT", "UNION", "SELECT", "--", "/*", "*/", ";"]

/-- DatabaseQueryBuilder.validate_input. The two type-specific parsers
(Python int() and datetime.strptime, only reached when no keyword matches)
are abstracted as boolean oracles, so every theorem about this function holds
for every parser behaviour. -/
def validate_input (parseIntOk parseDateOk : String → Bool)
    (value : String) (input_type : String) : Bool :=
  if value = "" then true
  else if dangerous_keywords.any (fun k => containsSub (pyUpper value) k) then false
  else if input_type = "number" then parseIntOk value
  else if input_type = "date" then parseDateOk value
  else true

/-! ### SalesDataProcessor (data_processor.py): branch aggregation -/

/-- One row of the GROUP BY PuntoVenta, Articulo query feeding
_process_branch_sales_data: the SUM columns arrive from the MySQL connector
as Decimal values, modelled as exact rationals. -/
structure SalesRecord where
  PuntoVenta : String
  Articulo : String
  total_kilos : ℚ
  total_cantidad : ℚ
  total_total : ℚ
  total_neto : ℚ
deriving DecidableEq

/-- The SALES_TYPE_MAP component of the product categories: product name to
tipo_venta, loaded from the Productos table or from the fallback. -/
abbrev SalesTypeMap := List (String × String)

/-- SALES_TYPE_MAP of _get_fallback_categories. -/
def fallback_sales_type_map : SalesTypeMap :=
  [("Pellet Bolsa 15 Kg (Retiro)", "Local"),
    ("Pellet Bolsa 15 Kg (Despacho)", "Local"),
    ("Pellet Bolsa 15 Kg (Distribuidor)", "Distribuidor")]

/-- SalesDataProcessor._get_sales_type: dictionary get with default
Unknown. -/
def get_sales_type (m : SalesTypeMap) (product : String) : String :=
  (m.lookup product).getD "Unknown"

/-- One per-branch per-sales-type accumulator bucket (cantidad, toneladas,
total_neto, total_bruto). The cantidad field is also a Decimal at run time
because SUM(Unidad) arrives as a Decimal from the connector. -/
@[ext]
structure Bucket where
  cantidad : ℚ
  toneladas : ℚ
  total_neto : ℚ
  total_bruto : ℚ
deriving DecidableEq

/-- The two sales-type buckets of one branch: the keys
Pellet (venta local) and Pellet (venta distribuidor). -/
@[ext]
structure BranchBuckets where
  ventaLocal : Bucket
  ventaDistribuidor : Bucket
deriving DecidableEq

/-- The osorno/union pair returned by _process_branch_sales_data. -/
@[ext]
structure BranchSales where
  osorno : BranchBuckets
  union : BranchBuckets
deriving DecidableEq

/-- SalesDataProcessor._get_empty_branch_data: the all-zero structure. -/
def empty_branch_data : BranchSales :=
  ⟨⟨⟨0, 0, 0, 0⟩, ⟨0, 0, 0, 0⟩⟩, ⟨⟨0, 0, 0, 0⟩, ⟨0, 0, 0, 0⟩⟩⟩

/-- The body of the per-record loop shared by _process_branch_sales_data and
_aggregate_monthly_data, parameterized by the bucket update so that the
decimal-context and exact-arithmetic variants share one control flow:
determine the sales type (skipping unknown products), then dispatch on the
branch name. -/
def branchStepWith (upd : Bucket → SalesRecord → Bucket) (m : SalesTypeMap)
    (st : BranchSales) (r : SalesRecord) : BranchSales :=
  if get_sales_type m r.Articulo = "Local" then
    if r.PuntoVenta = "Osorno" then
      { st with osorno := { st.osorno with ventaLocal := upd st.osorno.ventaLocal r } }
    else if r.PuntoVenta = "La Unión" then
      { st with union := { st.union with ventaLocal := upd st.union.ventaLocal r } }
    else st
  else if get_sales_type m r.Articulo = "Distribuidor" then
    if r.PuntoVenta = "Osorno" then
      { st with osorno := { st.osorno with ventaDistribuidor := upd st.osorno.ventaDistribuidor r } }
    else if r.PuntoVenta = "La Unión" then
      { st with union := { st.union with ventaDistribuidor := upd st.union.ventaDistribuidor r } }
    else st
  else st

/-- Bucket update of _process_branch_sales_data under the 10-digit decimal
context: tons is the decimal quotient kilos / 1000 and every running total is
a decimal addition. -/
def bucketStep (b : Bucket) (r : SalesRecord) : Bucket :=
  { cantidad := decAdd b.cantidad r.total_cantidad
    toneladas := decAdd b.toneladas (decDiv r.total_kilos 1000)
    total_neto := decAdd b.total_neto r.total_neto
    total_bruto := decAdd b.total_bruto r.total_total }

/-- SalesDataProcessor._process_branch_sales_data: fold the per-record update
over the rows, starting from the all-zero structure. -/
def process_branch_sales_data (m : SalesTypeMap) (raw : List SalesRecord) : BranchSales :=
  raw.foldl (branchStepWith bucketStep m) empty_branch_data

/-- Comparison definition for the amended aggregation claim: the same bucket
update in exact rational arithmetic, with no 10-significant-digit rounding. -/
def bucketStepExact (b : Bucket) (r : SalesRecord) : Bucket :=
  { cantidad := b.cantidad + r.total_cantidad
    toneladas := b.toneladas + r.total_kilos / 1000
    total_neto := b.total_neto + r.total_neto
    total_bruto := b.total_bruto + r.total_total }

/-- Comparison definition for the amended aggregation claim:
_process_branch_sales_data with exact (unrounded) arithmetic. -/
def process_branch_sales_dataExact (m : SalesTypeMap) (raw : List SalesRecord) : BranchSales :=
  raw.foldl (branchStepWith bucketStepExact m) empty_branch_data

/-- Pointwise sum of buckets. -/
def Bucket.add (a b : Bucket) : Bucket :=
  ⟨a.cantidad + b.cantidad, a.toneladas + b.toneladas,
    a.total_neto + b.total_neto, a.total_bruto + b.total_bruto⟩

/-- Pointwise sum of branch bucket pairs. -/
def BranchBuckets.add (a b : BranchBuckets) : BranchBuckets :=
  ⟨a.ventaLocal.add b.ventaLocal, a.ventaDistribuidor.add b.ventaDistribuidor⟩

/-- Pointwise sum of whole branch structures. -/
def BranchSales.add (a b : BranchSales) : BranchSales :=
  ⟨a.osorno.add b.osorno, a.union.add b.union⟩

/-! ### SalesDataProcessor: query execution, cache, monthly aggregation -/

/-- SalesDataProcessor._execute_query: the database interaction is an oracle
result — none models a failed connection (conectar returned None), error
models a raised exception (mysql.connector.Error or any other), ok carries
the fetched rows. Both failure branches are caught and yield the empty
list. -/
def execute_query (res : Option (Except String (List SalesRecord))) : List SalesRecord :=
  match res with
  | none => []
  | some (Except.error _) => []
  | some (Except.ok rows) => rows

/-- The mutable cache state of SalesDataProcessor: data_cache and
last_cache_update, both keyed by the cache-key string. -/
structure ProcCache where
  data_cache : String → Option BranchSales
  last_cache_update : String → Option ℤ

/-- SalesDataProcessor._is_cache_valid at wall-clock time now (in seconds):
membership in both dictionaries, then the test
(datetime.now() - stored).seconds < 300. The Python seconds attribute of a
timedelta is the whole-second remainder after removing whole days, so for a
nonnegative elapsed time it equals elapsed mod 86400 — not the total elapsed
time. -/
def is_cache_valid (st : ProcCache) (now : ℤ) (cache_key : String) : Bool :=
  match st.data_cache cache_key with
  | none => false
  | some _ =>
    match st.last_cache_update cache_key with
    | none => false
    | some t => decide ((now - t) % 86400 < 300)

/-- Python str(date): ISO yyyy-mm-dd with zero padding, used in cache-key
construction. -/
def pyDateStr (d : PyDate) : String :=
  toString d.year ++ "-" ++ (if d.month < 10 then "0" else "") ++ toString d.month
    ++ "-" ++ (if d.day < 10 then "0" else "") ++ toString d.day

/-- The GROUP BY query text of get_sales_by_branch_data, around the date
condition chosen there. -/
def branchSalesQuery (cond : String) : String :=
  "\n                SELECT PuntoVenta, Articulo, SUM(KilosTotales) AS total_kilos, \n                       SUM(Unidad) AS total_cantidad, SUM(Total) AS total_total, \n                       SUM(Neto) AS total_neto\n                FROM VentasDiarias\n                WHERE " ++ cond ++ "\n                GROUP BY PuntoVenta, Articulo\n            "

/-- SalesDataProcessor.get_sales_by_branch_data: serve the cache when
_is_cache_valid holds, otherwise build the date condition (equality for a
one-day range, BETWEEN otherwise), run the query, process the rows and store
the result in both cache dictionaries. -/
def get_sales_by_branch_data (m : SalesTypeMap)
    (db : String → List SqlParam → Option (Except String (List SalesRecord)))
    (st : ProcCache) (now : ℤ) (s e : PyDate) : BranchSales × ProcCache :=
  if is_cache_valid st now ("branch_sales_" ++ pyDateStr s ++ "_" ++ pyDateStr e) then
    ((st.data_cache ("branch_sales_" ++ pyDateStr s ++ "_" ++ pyDateStr e)).getD empty_branch_data, st)
  else
    (process_branch_sales_data m
        (execute_query
          (if s = e then db (branchSalesQuery ("Fecha = %s")) [SqlParam.date s]
            else db (branchSalesQuery ("Fecha BETWEEN %s AND %s")) [SqlParam.date s, SqlParam.date e])),
      ⟨fun k => if k = "branch_sales_" ++ pyDateStr s ++ "_" ++ pyDateStr e then
          some (process_branch_sales_data m
            (execute_query
              (if s = e then db (branchSalesQuery ("Fecha = %s")) [SqlParam.date s]
                else db (branchSalesQuery ("Fecha BETWEEN %s AND %s")) [SqlParam.date s, SqlParam.date e])))
        else st.data_cache k,
        fun k => if k = "branch_sales_" ++ pyDateStr s ++ "_" ++ pyDateStr e then some now
        else st.last_cache_update k⟩)

/-- The fixed month query text of _get_monthly_data. -/
def monthlyQuery : String :=
  "\n            SELECT PuntoVenta, Articulo, SUM(KilosTotales) AS total_kilos, \n                   SUM(Unidad) AS total_cantidad, SUM(Total) AS total_total, \n                   SUM(Neto) AS total_neto\n            FROM VentasDiarias\n            WHERE Fecha BETWEEN %s AND %s\n            GROUP BY PuntoVenta, Articulo\n        "

/-- Gregorian leap-year rule, as implemented by Python datetime.date. -/
def isLeapYear (y : ℤ) : Bool := (y % 4 = 0 && y % 100 ≠ 0) || y % 400 = 0

/-- Length of month m of year y: the value of
date(y, m+1, 1) - timedelta(days=1) (December handled via the next
January 1st) in the month-end computation of
get_monthly_sales_by_branch_data. -/
def daysInMonth (y : ℤ) (m : ℕ) : ℕ :=
  if m = 2 then (if isLeapYear y then 29 else 28)
  else if m = 4 ∨ m = 6 ∨ m = 9 ∨ m = 11 then 30
  else 31

/-- The month numbers actually iterated by
get_monthly_sales_by_branch_data: range(start_month, end_month + 1), cut
short by the break on current_year != end_year and month > 12 (current_year
is initialized to the start year and never changed in the loop). -/
def monthsProcessed (s e : PyDate) : List ℕ :=
  (List.range' s.month (e.month + 1 - s.month)).takeWhile
    (fun mo => !(decide (s.year ≠ e.year) && decide (mo > 12)))

/-- SalesDataProcessor.get_monthly_sales_by_branch_data: cache wrapper around
a fold over the iterated months; each month queries the rows of month mo of
the start year (first day through last day) and aggregates them with
_aggregate_monthly_data, whose loop body is identical to the one of
_process_branch_sales_data. -/
def get_monthly_sales_by_branch_data (m : SalesTypeMap)
    (db : String → List SqlParam → Option (Except String (List SalesRecord)))
    (st : ProcCache) (now : ℤ) (s e : PyDate) : BranchSales × ProcCache :=
  if is_cache_valid st now ("monthly_branch_sales_" ++ pyDateStr s ++ "_" ++ pyDateStr e) then
    ((st.data_cache ("monthly_branch_sales_" ++ pyDateStr s ++ "_" ++ pyDateStr e)).getD empty_branch_data, st)
  else
    ((monthsProcessed s e).foldl
        (fun acc mo =>
          (execute_query (db monthlyQuery
              [SqlParam.date ⟨s.year, mo, 1⟩,
                SqlParam.date ⟨s.year, mo, daysInMonth s.year mo⟩])).foldl
            (branchStepWith bucketStep m) acc)
        empty_branch_data,
      ⟨fun k => if k = "monthly_branch_sales_" ++ pyDateStr s ++ "_" ++ pyDateStr e then
          some ((monthsProcessed s e).foldl
            (fun acc mo =>
              (execute_query (db monthlyQuery
                  [SqlParam.date ⟨s.year, mo, 1⟩,
                    SqlParam.date ⟨s.year, mo, daysInMonth s.year mo⟩])).foldl
                (branchStepWith bucketStep m) acc)
            empty_branch_data)
        else st.data_cache k,
        fun k => if k = "monthly_branch_sales_" ++ pyDateStr s ++ "_" ++ pyDateStr e then some now
        else st.last_cache_update k⟩)

/-! ### SalesDataProcessor: daily sales summary -/

/-- One raw record consumed by process_daily_sales_summary: cantidad passes
through int(), total through Decimal(str(...)), kilos may be absent (the
code then defaults it to quantity * 15). -/
structure DailyRecord where
  producto : String
  cantidad : ℤ
  total : ℚ
  kilos : Option ℚ
deriving DecidableEq

/-- One product entry of the summary dictionary; the metric fields
total_neto, total_dolares and toneladas are filled by the metrics loop and
are initialized to 0 here (the Python dict simply lacks the keys until
then). -/
structure ProductEntry where
  cantidad : ℤ
  total_bruto : ℚ
  kilos : ℚ
  unit : String
  total_neto : ℚ
  total_dolares : ℚ
  toneladas : ℚ
deriving DecidableEq

/-- The product categorization configuration of the processor (loaded from
the Productos table or from _get_fallback_categories). -/
structure ProductCategories where
  product_unit : List (String × String)
  pellet_products : List String
  vacam_products : List String

/-- A fresh summary entry for one product. -/
def initEntry (u : String) : ProductEntry := ⟨0, 0, 0, u, 0, 0, 0⟩

/-- In-place update of the entry under a key of an association list. -/
def updAssoc : List (String × ProductEntry) → String →
    (ProductEntry → ProductEntry) → List (String × ProductEntry)
  | [], _, _ => []
  | (k, v) :: t, p, f => if k = p then (k, f v) :: t else (k, v) :: updAssoc t p f

/-- The accumulation loop body of process_daily_sales_summary: insert a fresh
entry on first sight of the product, then add quantity (exact integer
arithmetic), total (decimal addition) and kilos (decimal addition; the raw
values arrive as Decimal from the database). -/
def dailyStep (cats : ProductCategories) (s : List (String × ProductEntry))
    (r : DailyRecord) : List (String × ProductEntry) :=
  updAssoc
    (if (s.lookup r.producto).isSome then s
      else s ++ [(r.producto, initEntry ((cats.product_unit.lookup r.producto).getD "units"))])
    r.producto
    (fun en =>
      { en with cantidad := en.cantidad + r.cantidad,
                total_bruto := decAdd en.total_bruto r.total,
                kilos := decAdd en.kilos (r.kilos.getD ((r.cantidad : ℚ) * 15)) })

/-- The financial-metrics assignment applied to every summary entry (and to
the category totals): total_neto = total_bruto / 1.19,
total_dolares = total_bruto / exchange_rate, toneladas = kilos / 1000, all
decimal operations. -/
def applyDailyMetrics (rate : ℚ) (en : ProductEntry) : ProductEntry :=
  { en with total_neto := decDiv en.total_bruto (119/100),
            total_dolares := decDiv en.total_bruto rate,
            toneladas := decDiv en.kilos 1000 }

/-- The category accumulation loop of _add_category_totals over one product
list. -/
def categoryTotal (s : List (String × ProductEntry)) (prods : List String)
    (u : String) : ProductEntry :=
  prods.foldl
    (fun acc p =>
      match s.lookup p with
      | some en =>
        { acc with cantidad := acc.cantidad + en.cantidad,
                   total_bruto := decAdd acc.total_bruto en.total_bruto,
                   kilos := decAdd acc.kilos en.kilos }
      | none => acc)
    (initEntry u)

/-- SalesDataProcessor._add_category_totals: append Total Pellet and
Total Vacam rows (each with the same metric assignments) when their counts
are positive. -/
def add_category_totals (rate : ℚ) (cats : ProductCategories)
    (s : List (String × ProductEntry)) : List (String × ProductEntry) :=
  if (categoryTotal s cats.pellet_products ("bolsas")).cantidad > 0 then
    if (categoryTotal (s ++ [("Total Pellet", applyDailyMetrics rate (categoryTotal s cats.pellet_products ("bolsas")))]) cats.vacam_products ("total")).cantidad > 0 then
      (s ++ [("Total Pellet", applyDailyMetrics rate (categoryTotal s cats.pellet_products ("bolsas")))])
        ++ [("Total Vacam", applyDailyMetrics rate (categoryTotal (s ++ [("Total Pellet", applyDailyMetrics rate (categoryTotal s cats.pellet_products ("bolsas")))]) cats.vacam_products ("total")))]
    else s ++ [("Total Pellet", applyDailyMetrics rate (categoryTotal s cats.pellet_products ("bolsas")))]
  else
    if (categoryTotal s cats.vacam_products ("total")).cantidad > 0 then
      s ++ [("Total Vacam", applyDailyMetrics rate (categoryTotal s cats.vacam_products ("total")))]
    else s

/-- SalesDataProcessor.process_daily_sales_summary: accumulate the raw rows,
apply the metrics loop to every entry, then append the category totals. A
zero exchange rate raises DivisionByZero inside the metrics loop, which the
broad except of the function turns into an empty summary. -/
def process_daily_sales_summary (rate : ℚ) (cats : ProductCategories)
    (raw : List DailyRecord) : List (String × ProductEntry) :=
  if rate = 0 then []
  else add_category_totals rate cats
    ((raw.foldl (dailyStep cats) []).map (fun kv => (kv.1, applyDailyMetrics rate kv.2)))

/-! ### Module-level helpers of data_processor.py -/

/-- validate_date_range over proleptic ordinals (Python date comparison and
timedelta day count coincide with integer comparison and subtraction of
ordinals; business_start defaults to date(2024, 4, 1) and today to
date.today(), both passed here as parameters). -/
def validate_date_range (today business_start start_date end_date : ℤ) : Bool :=
  if start_date > end_date then false
  else if start_date < business_start then false
  else if end_date > today then false
  else if end_date - start_date > 730 then false
  else true

/-- Result dictionary of calculate_financial_metrics. -/
structure FinancialMetrics where
  bruto : ℚ
  neto : ℚ
  iva : ℚ
  usd : ℚ
deriving DecidableEq

/-- calculate_financial_metrics (module level): neto = amount / iva_rate,
iva = neto * (iva_rate - 1), usd = amount / exchange_rate, all decimal
operations; a zero iva_rate or exchange rate raises DivisionByZero, which the
except branch turns into the all-zero dictionary. -/
def calculate_financial_metrics (amount exchange_rate iva_rate : ℚ) : FinancialMetrics :=
  if iva_rate = 0 ∨ exchange_rate = 0 then ⟨0, 0, 0, 0⟩
  else
    ⟨amount, decDiv amount iva_rate,
      decMul (decDiv amount iva_rate) (decSub iva_rate 1),
      decDiv amount exchange_rate⟩

/-- The tax tail of SalesEntryWindow._calculate_financial_totals
(sales_entry.py): net_amount = gross_total / 1.19 and
tax_amount = net_amount * 0.19 in Python float arithmetic, modelled over the
rationals with an abstract rounding fl applied after each operation (the
binary64 literals 1.19 and 0.19 are idealized as exact; their representation
error is absorbed by the per-operation relative bound assumed of fl in the
theorems). -/
def financial_totals_net_tax (fl : ℚ → ℚ) (gross_total : ℚ) : ℚ × ℚ :=
  (fl (gross_total / (119/100)), fl (fl (gross_total / (119/100)) * (19/100)))

/-! ### Bounds for the decimal rounding -/

theorem log10Fuel_bounds (fuel : ℕ) :
    ∀ n : ℕ, n ≠ 0 → n ≤ fuel →
      10 ^ log10Fuel fuel n ≤ n ∧ n < 10 ^ (log10Fuel fuel n + 1) := by
  induction fuel with
  | zero => intro n hn hle; omega
  | succ f ih =>
    intro n hn hle
    by_cases h : n < 10
    · simp only [log10Fuel, if_pos h]
      constructor
      · simpa using Nat.one_le_iff_ne_zero.mpr hn
      · simpa using h
    · simp only [log10Fuel, if_neg h]
      push_neg at h
      have hdiv_ne : n / 10 ≠ 0 := by
        have : 1 ≤ n / 10 := Nat.le_div_iff_mul_le (by norm_num) |>.mpr (by omega)
        omega
      have hdiv_lt : n / 10 < n := Nat.div_lt_self (by omega) (by norm_num)
      have hdiv_le : n / 10 ≤ f := by omega
      obtain ⟨h1, h2⟩ := ih (n / 10) hdiv_ne hdiv_le
      constructor
      · calc 10 ^ (log10Fuel f (n / 10) + 1)
            = 10 ^ log10Fuel f (n / 10) * 10 := by ring
          _ ≤ (n / 10) * 10 := by exact Nat.mul_le_mul_right 10 h1
          _ ≤ n := by
              have := Nat.div_add_mod n 10
              have : n % 10 < 10 := Nat.mod_lt _ (by norm_num)
              omega
      · have hq : n < (n / 10) * 10 + 10 := by
          have := Nat.div_add_mod n 10
          have : n % 10 < 10 := Nat.mod_lt _ (by norm_num)
          omega
        have hK : 1 ≤ 10 ^ (log10Fuel f (n / 10) + 1) := Nat.one_le_pow _ _ (by norm_num)
        have hpow : 10 ^ (log10Fuel f (n / 10) + 1 + 1)
            = 10 ^ (log10Fuel f (n / 10) + 1) * 10 := by ring
        have hmul : (n / 10) * 10 ≤ (10 ^ (log10Fuel f (n / 10) + 1) - 1) * 10 :=
          Nat.mul_le_mul_right 10 (by omega)
        omega

theorem natLog10_bounds {n : ℕ} (hn : n ≠ 0) :
    10 ^ natLog10 n ≤ n ∧ n < 10 ^ (natLog10 n + 1) :=
  log10Fuel_bounds n n hn le_rfl

theorem roundHalfEven_sub_abs (q : ℚ) : |(roundHalfEven q : ℚ) - q| ≤ 1/2 := by
  have h1 : ((⌊q⌋ : ℤ) : ℚ) ≤ q := Int.floor_le q
  have h2 : q < ⌊q⌋ + 1 := Int.lt_floor_add_one q
  unfold roundHalfEven
  split_ifs with ha hb hc <;> rw [abs_le] <;> constructor <;> push_cast <;> linarith

theorem roundHalfEven_intCast (n : ℤ) : roundHalfEven (n : ℚ) = n := by
  unfold roundHalfEven
  rw [Int.floor_intCast]
  norm_num

theorem abs_rat_eq (x : ℚ) : |x| = (x.num.natAbs : ℚ) / (x.den : ℚ) := by
  conv_lhs => rw [← Rat.num_div_den x]
  rw [abs_div, abs_of_pos (by exact_mod_cast x.den_pos : (0:ℚ) < (x.den : ℚ))]
  congr 1
  rw [Int.cast_natAbs]
  exact Int.cast_abs.symm

theorem decExp_bounds {x : ℚ} (hx : x ≠ 0) :
    (10:ℚ) ^ decExp x ≤ |x| ∧ |x| < (10:ℚ) ^ (decExp x + 1) := by
  have hnum : x.num ≠ 0 := Rat.num_ne_zero.mpr hx
  have hn : x.num.natAbs ≠ 0 := Int.natAbs_ne_zero.mpr hnum
  have hdpos : 0 < x.den := x.den_pos
  obtain ⟨na1, na2⟩ := natLog10_bounds hn
  obtain ⟨nb1, nb2⟩ := natLog10_bounds (by omega : x.den ≠ 0)
  have hden : (0:ℚ) < (x.den : ℚ) := by exact_mod_cast hdpos
  have habs : |x| = (x.num.natAbs : ℚ) / (x.den : ℚ) := abs_rat_eq x
  have hA1 : (10:ℚ) ^ ((natLog10 x.num.natAbs : ℤ)) ≤ (x.num.natAbs : ℚ) := by
    rw [zpow_natCast]; exact_mod_cast na1
  have hA2 : (x.num.natAbs : ℚ) < (10:ℚ) ^ ((natLog10 x.num.natAbs : ℤ) + 1) := by
    rw [show (natLog10 x.num.natAbs : ℤ) + 1 = ((natLog10 x.num.natAbs + 1 : ℕ) : ℤ) by push_cast; ring,
      zpow_natCast]
    exact_mod_cast na2
  have hB1 : (10:ℚ) ^ ((natLog10 x.den : ℤ)) ≤ (x.den : ℚ) := by
    rw [zpow_natCast]; exact_mod_cast nb1
  have hB2 : (x.den : ℚ) < (10:ℚ) ^ ((natLog10 x.den : ℤ) + 1) := by
    rw [show (natLog10 x.den : ℤ) + 1 = ((natLog10 x.den + 1 : ℕ) : ℤ) by push_cast; ring,
      zpow_natCast]
    exact_mod_cast nb2
  have hten : (10:ℚ) ≠ 0 := by norm_num
  have hx_lt : |x| < (10:ℚ) ^ ((natLog10 x.num.natAbs : ℤ) - (natLog10 x.den : ℤ) + 1) := by
    rw [habs, div_lt_iff hden]
    calc (x.num.natAbs : ℚ)
        < (10:ℚ) ^ ((natLog10 x.num.natAbs : ℤ) + 1) := hA2
      _ = (10:ℚ) ^ ((natLog10 x.num.natAbs : ℤ) - (natLog10 x.den : ℤ) + 1)
            * (10:ℚ) ^ ((natLog10 x.den : ℤ)) := by
          rw [← zpow_add₀ hten]; ring_nf
      _ ≤ (10:ℚ) ^ ((natLog10 x.num.natAbs : ℤ) - (natLog10 x.den : ℤ) + 1) * (x.den : ℚ) := by
          exact mul_le_mul_of_nonneg_left hB1 (by positivity)
  have hx_ge : (10:ℚ) ^ ((natLog10 x.num.natAbs : ℤ) - (natLog10 x.den : ℤ) - 1) ≤ |x| := by
    rw [habs, le_div_iff hden]
    calc (10:ℚ) ^ ((natLog10 x.num.natAbs : ℤ) - (natLog10 x.den : ℤ) - 1) * (x.den : ℚ)
        ≤ (10:ℚ) ^ ((natLog10 x.num.natAbs : ℤ) - (natLog10 x.den : ℤ) - 1)
            * (10:ℚ) ^ ((natLog10 x.den : ℤ) + 1) := by
          exact mul_le_mul_of_nonneg_left hB2.le (by positivity)
      _ = (10:ℚ) ^ ((natLog10 x.num.natAbs : ℤ)) := by
          rw [← zpow_add₀ hten]; ring_nf
      _ ≤ (x.num.natAbs : ℚ) := hA1
  unfold decExp
  split_ifs with hcond
  · exact ⟨hcond, hx_lt⟩
  · push_neg at hcond
    refine ⟨hx_ge, ?_⟩
    simpa using hcond

theorem decExp_eq_of {x : ℚ} {e : ℤ} (h1 : (10:ℚ) ^ e ≤ |x|) (h2 : |x| < (10:ℚ) ^ (e + 1)) :
    decExp x = e := by
  have hx : x ≠ 0 := by
    intro h
    rw [h] at h1
    simp at h1
    have : (0:ℚ) < (10:ℚ) ^ e := by positivity
    linarith
  obtain ⟨g1, g2⟩ := decExp_bounds hx
  by_contra hne
  rcases lt_or_gt_of_ne hne with hlt | hgt
  · have : (10:ℚ) ^ (decExp x + 1) ≤ (10:ℚ) ^ e :=
      zpow_le_zpow_right₀ (by norm_num) (by omega)
    linarith
  · have : (10:ℚ) ^ (e + 1) ≤ (10:ℚ) ^ decExp x :=
      zpow_le_zpow_right₀ (by norm_num) (by omega)
    linarith

theorem decRound_zero : decRound 0 = 0 := by simp [decRound]

theorem decRound_err (x : ℚ) : |decRound x - x| ≤ |x| / 2000000000 := by
  by_cases hx : x = 0
  · subst hx; simp [decRound_zero]
  · obtain ⟨g1, g2⟩ := decExp_bounds hx
    set aX : ℚ := |x| with haX
    set e := decExp x with he
    set s : ℚ := (10:ℚ) ^ (e - 9) with hsdef
    set R : ℚ := (roundHalfEven (aX / s) : ℚ) with hR
    have hs : (0:ℚ) < s := by positivity
    have hq : |R - aX / s| ≤ 1/2 := roundHalfEven_sub_abs (aX / s)
    have hss : s = (10:ℚ) ^ e / 1000000000 := by
      rw [hsdef, zpow_sub₀ (by norm_num : (10:ℚ) ≠ 0)]
      norm_num
    have hs_le : s ≤ aX / 1000000000 := by
      rw [hss]
      linarith
    have key : |R * s - aX| ≤ s / 2 := by
      have hrw : R * s - aX = (R - aX / s) * s := by field_simp
      rw [hrw, abs_mul, abs_of_pos hs]
      calc |R - aX / s| * s ≤ (1/2) * s := mul_le_mul_of_nonneg_right hq hs.le
        _ = s / 2 := by ring
    unfold decRound
    rw [if_neg hx, ← he, ← hsdef, ← haX, ← hR]
    rcases lt_or_gt_of_ne hx with hneg | hpos
    · rw [if_neg (by linarith : ¬ x > 0)]
      have habs : aX = -x := abs_of_neg hneg
      have hrw : (-1:ℚ) * R * s - x = -(R * s - aX) := by rw [habs]; ring
      rw [hrw, abs_neg]
      linarith
    · rw [if_pos hpos]
      have habs : aX = x := abs_of_pos hpos
      have hrw : (1:ℚ) * R * s - x = R * s - aX := by rw [habs]; ring
      rw [hrw]
      linarith

theorem decRound_eq_self {x : ℚ} {m : ℤ}
    (h : x = (m : ℚ) * (10:ℚ) ^ (decExp x - 9)) : decRound x = x := by
  by_cases hx : x = 0
  · rw [hx, decRound_zero]
  · unfold decRound
    rw [if_neg hx]
    set e := decExp x with he
    set s : ℚ := (10:ℚ) ^ (e - 9) with hsdef
    have hs : (0:ℚ) < s := by positivity
    have hm0 : m ≠ 0 := by
      intro hm
      rw [hm] at h
      simp at h
      exact hx h
    have habs : |x| / s = ((|m| : ℤ) : ℚ) := by
      rw [h, abs_mul, abs_of_pos hs, mul_div_assoc, div_self hs.ne']
      push_cast
      ring
    rw [habs, roundHalfEven_intCast]
    rcases lt_or_gt_of_ne hx with hneg | hpos
    · have hmneg : m < 0 := by
        rcases lt_trichotomy m 0 with hm | hm | hm
        · exact hm
        · exact absurd hm hm0
        · exfalso
          have hmq : (0:ℚ) < (m:ℚ) := by exact_mod_cast hm
          have : 0 < x := by rw [h]; exact mul_pos hmq hs
          linarith
      rw [if_neg (by linarith : ¬ x > 0)]
      have hcast : ((|m| : ℤ) : ℚ) = -(m:ℚ) := by
        rw [abs_of_neg hmneg]; push_cast; ring
      rw [hcast, h]; ring
    · have hmpos : 0 < m := by
        rcases lt_trichotomy m 0 with hm | hm | hm
        · exfalso
          have hmq : (m:ℚ) < 0 := by exact_mod_cast hm
          have : x < 0 := by rw [h]; exact mul_neg_of_neg_of_pos hmq hs
          linarith
        · exact absurd hm hm0
        · exact hm
      rw [if_pos hpos]
      have hcast : ((|m| : ℤ) : ℚ) = (m:ℚ) := by
        rw [abs_of_pos hmpos]
      rw [hcast, h]; ring

theorem decRound_fix (x : ℚ) (m e : ℤ)
    (hx : x = (m : ℚ) * (10:ℚ) ^ (e - 9))
    (h1 : (10:ℚ) ^ e ≤ |x|) (h2 : |x| < (10:ℚ) ^ (e + 1)) : decRound x = x := by
  have he := decExp_eq_of h1 h2
  exact decRound_eq_self (by rw [he]; exact hx)

theorem decRound_down (x : ℚ) (e f : ℤ)
    (h1 : (10:ℚ) ^ e ≤ |x|) (h2 : |x| < (10:ℚ) ^ (e + 1)) (hx : 0 < x)
    (hf1 : (f : ℚ) ≤ x / (10:ℚ) ^ (e - 9))
    (hf2 : x / (10:ℚ) ^ (e - 9) < (f : ℚ) + 1/2) :
    decRound x = (f : ℚ) * (10:ℚ) ^ (e - 9) := by
  have he := decExp_eq_of h1 h2
  have hs : (0:ℚ) < (10:ℚ) ^ (e - 9) := by positivity
  have habs : |x| = x := abs_of_pos hx
  unfold decRound
  rw [if_neg hx.ne', if_pos hx, he, habs]
  have hfl : ⌊x / (10:ℚ) ^ (e - 9)⌋ = f := by
    rw [Int.floor_eq_iff]
    · exact ⟨hf1, by linarith⟩
  have : roundHalfEven (x / (10:ℚ) ^ (e - 9)) = f := by
    unfold roundHalfEven
    rw [hfl, if_pos (by push_cast; linarith)]
  rw [this]; ring

/-! ### Query builder: shape factorization -/

theorem subAux_iff (n : List Char) (h : List Char) :
    subAux n h = true ↔ n <:+: h := by
  induction h with
  | nil =>
    simp [subAux, List.isEmpty_iff, List.infix_nil]
  | cons c rest ih =>
    simp only [subAux, Bool.or_eq_true, ih, List.infix_cons_iff,
      List.isPrefixOf_iff_prefix]

theorem dateConditions_shape (f : SearchFilters) :
    (dateConditions f).1
      = (if (extShape f).hasDates then
          (if (extShape f).eqDates then ["Fecha = %s"] else ["Fecha BETWEEN %s AND %s"])
        else []) := by
  unfold dateConditions extShape
  cases f.start_date with
  | none => cases f.end_date <;> simp
  | some s =>
    cases f.end_date with
    | none => simp
    | some e => by_cases h : s = e <;> simp [h]

theorem branchConditions_shape (f : SearchFilters) :
    (branchConditions f).1
      = (if (extShape f).nBranches ≠ 0 then
          ["PuntoVenta IN (" ++ placeholders (extShape f).nBranches ++ ")"]
        else []) := by
  unfold branchConditions extShape
  by_cases h : f.branches = [] <;> simp [h, List.length_eq_zero]

theorem docTypeConditions_shape (f : SearchFilters) :
    (docTypeConditions f).1
      = (if (extShape f).nDocTypes ≠ 0 ∧ ¬ (extShape f).todoDocTypes = true then
          ["TipoDocumento IN (" ++ placeholders (extShape f).nDocTypes ++ ")"]
        else []) := by
  unfold docTypeConditions extShape
  by_cases h : f.document_types = [] <;> by_cases ht : "Todo" ∈ f.document_types <;>
    simp [h, ht, List.length_eq_zero]

theorem productConditions_shape (f : SearchFilters) :
    (productConditions f).1
      = (if (extShape f).nProducts ≠ 0 ∧ ¬ (extShape f).todoProducts = true then
          ["Articulo IN (" ++ placeholders (extShape f).nProducts ++ ")"]
        else []) := by
  unfold productConditions extShape
  by_cases h : f.products = [] <;> by_cases ht : "Todo" ∈ f.products <;>
    simp [h, ht, List.length_eq_zero]

theorem docNumberConditions_shape (f : SearchFilters) :
    (docNumberConditions f).1
      = (if (extShape f).hasDocNumber then ["NumeroDocumento = %s"] else []) := by
  unfold docNumberConditions extShape
  by_cases h : pyStrip f.document_number = "" <;> simp [h]

theorem build_sql_eq_shape (f : SearchFilters) :
    (build_search_query f).1 = sqlOfShape (extShape f) := by
  unfold build_search_query sqlOfShape
  rw [dateConditions_shape, branchConditions_shape, docTypeConditions_shape,
    productConditions_shape, docNumberConditions_shape]

set_option maxRecDepth 100000

/-- C1 counterexample: two pairs of filter objects of identical claim shape
(same presence flags, same list lengths, same document-number presence) whose
SQL texts differ: first a pair differing only in whether the two dates are
equal, then a pair differing only in whether the literal Todo occurs in the
document-type list. -/
theorem C1_counterexample :
    (claimShape ⟨some ⟨2024, 5, 1⟩, some ⟨2024, 5, 1⟩, [], [], [], ""⟩
        = claimShape ⟨some ⟨2024, 5, 1⟩, some ⟨2024, 5, 2⟩, [], [], [], ""⟩
      ∧ (build_search_query ⟨some ⟨2024, 5, 1⟩, some ⟨2024, 5, 1⟩, [], [], [], ""⟩).1
        ≠ (build_search_query ⟨some ⟨2024, 5, 1⟩, some ⟨2024, 5, 2⟩, [], [], [], ""⟩).1)
    ∧ (claimShape ⟨none, none, [], ["Factura"], [], ""⟩
        = claimShape ⟨none, none, [], ["Todo"], [], ""⟩
      ∧ (build_search_query ⟨none, none, [], ["Factura"], [], ""⟩).1
        ≠ (build_search_query ⟨none, none, [], ["Todo"], [], ""⟩).1) := by
  exact ⟨⟨by decide, by decide⟩, ⟨by decide, by decide⟩⟩

/-- C1 (amended): the SQL text of build_search_query depends only on the
extended shape of the filter object — which filters are present, the list
lengths, whether the two dates are equal, and whether the literal Todo occurs
in the document-type or product list; in particular no user-supplied filter
value is ever interpolated into the SQL text, values reach the database only
through the parameter tuple. -/
theorem C1_sql_shape_invariance (f g : SearchFilters)
    (h : extShape f = extShape g) :
    (build_search_query f).1 = (build_search_query g).1 := by
  rw [build_sql_eq_shape, build_sql_eq_shape, h]

/-- C1 witness: two filter objects whose values differ everywhere (dates,
branch names, document types, products, document numbers) but whose extended
shapes agree, yield character-identical SQL. -/
theorem C1_sql_shape_invariance_witness :
    extShape ⟨some ⟨2024, 5, 1⟩, some ⟨2024, 5, 2⟩, ["Osorno"], ["Factura"], ["Pellet Bolsa 15 Kg (Retiro)"], "123"⟩
      = extShape ⟨some ⟨2025, 1, 7⟩, some ⟨2025, 2, 9⟩, ["La Unión"], ["Boleta"], ["Pellet Granel"], "99"⟩
    ∧ (build_search_query ⟨some ⟨2024, 5, 1⟩, some ⟨2024, 5, 2⟩, ["Osorno"], ["Factura"], ["Pellet Bolsa 15 Kg (Retiro)"], "123"⟩).1
      = (build_search_query ⟨some ⟨2025, 1, 7⟩, some ⟨2025, 2, 9⟩, ["La Unión"], ["Boleta"], ["Pellet Granel"], "99"⟩).1 :=
  ⟨by decide,
    C1_sql_shape_invariance
      ⟨some ⟨2024, 5, 1⟩, some ⟨2024, 5, 2⟩, ["Osorno"], ["Factura"], ["Pellet Bolsa 15 Kg (Retiro)"], "123"⟩
      ⟨some ⟨2025, 1, 7⟩, some ⟨2025, 2, 9⟩, ["La Unión"], ["Boleta"], ["Pellet Granel"], "99"⟩
      (by decide)⟩

/-- C6: validate_input returns false whenever the upper-cased value contains
one of the denylisted SQL keywords as a substring, for every input type and
every behaviour of the type-specific parsers. -/
theorem C6_keyword_rejected (parseIntOk parseDateOk : String → Bool)
    (value input_type : String)
    (h : ∃ k ∈ dangerous_keywords, k.data <:+: (pyUpper value).data) :
    validate_input parseIntOk parseDateOk value input_type = false := by
  obtain ⟨k, hk, hinf⟩ := h
  have hval : ¬ value = "" := by
    intro hv
    subst hv
    have hknil : k.data = [] := by simpa [pyUpper] using hinf
    have hke : k = "" := by
      cases k with
      | mk d => simp at hknil; simp [hknil]
    subst hke
    exact absurd hk (by decide)
  have hany : (dangerous_keywords.any (fun k => containsSub (pyUpper value) k)) = true := by
    rw [List.any_eq_true]
    refine ⟨k, hk, ?_⟩
    unfold containsSub
    exact (subAux_iff k.data (pyUpper value).data).mpr hinf
  unfold validate_input
  rw [if_neg hval, if_pos hany]

/-- C6 witness: a concrete text containing both a statement separator and the
DROP keyword is rejected under the text input type with parsers that accept
everything. -/
theorem C6_keyword_rejected_witness :
    (∃ k ∈ dangerous_keywords, k.data <:+: (pyUpper "1; drop table VentasDiarias").data)
    ∧ validate_input (fun _ => true) (fun _ => true) "1; drop table VentasDiarias" "text" = false :=
  ⟨⟨";", by decide, ⟨['1'], (" DROP TABLE VENTASDIARIAS").data, by decide⟩⟩,
    C6_keyword_rejected (fun _ => true) (fun _ => true) "1; drop table VentasDiarias" "text"
      ⟨";", by decide, ⟨['1'], (" DROP TABLE VENTASDIARIAS").data, by decide⟩⟩⟩

/-- C10: if the literal Todo occurs in the document-type list the query is the
one with that filter dropped entirely (likewise for the product list), and
with no active filter at all the WHERE clause degenerates to 1=1 with an empty
parameter tuple. -/
theorem C10_todo_wildcard (f : SearchFilters) :
    ("Todo" ∈ f.document_types →
      build_search_query f = build_search_query { f with document_types := [] })
    ∧ ("Todo" ∈ f.products →
      build_search_query f = build_search_query { f with products := [] })
    ∧ (f.start_date = none → f.end_date = none → f.branches = [] →
        f.document_types = [] → f.products = [] → pyStrip f.document_number = "" →
        (build_search_query f).1
            = baseQuery ++ " WHERE 1=1 ORDER BY Fecha DESC, VentaID DESC"
          ∧ (build_search_query f).2 = []) := by
  refine ⟨?_, ?_, ?_⟩
  · intro h
    simp [build_search_query, dateConditions, branchConditions, docTypeConditions,
      productConditions, docNumberConditions, h]
  · intro h
    simp [build_search_query, dateConditions, branchConditions, docTypeConditions,
      productConditions, docNumberConditions, h]
  · intro h1 h2 h3 h4 h5 h6
    simp [build_search_query, dateConditions, branchConditions, docTypeConditions,
      productConditions, docNumberConditions, h1, h2, h3, h4, h5, h6]
    decide

/-- C10 witness: concrete instances of the three parts. -/
theorem C10_todo_wildcard_witness :
    (build_search_query ⟨none, none, [], ["Factura", "Todo"], [], ""⟩
      = build_search_query ⟨none, none, [], [], [], ""⟩)
    ∧ (build_search_query ⟨none, none, [], [], ["Todo", "Pellet Granel"], ""⟩
      = build_search_query ⟨none, none, [], [], [], ""⟩)
    ∧ ((build_search_query ⟨none, none, [], [], [], "   "⟩).1
          = baseQuery ++ " WHERE 1=1 ORDER BY Fecha DESC, VentaID DESC"
        ∧ (build_search_query ⟨none, none, [], [], [], "   "⟩).2 = []) :=
  ⟨(C10_todo_wildcard ⟨none, none, [], ["Factura", "Todo"], [], ""⟩).1 (by decide),
    (C10_todo_wildcard ⟨none, none, [], [], ["Todo", "Pellet Granel"], ""⟩).2.1 (by decide),
    (C10_todo_wildcard ⟨none, none, [], [], [], "   "⟩).2.2 rfl rfl rfl rfl rfl (by decide)⟩

/-! ### Date-range validation and error fallbacks -/

/-- C5: validate_date_range accepts a range exactly when the start is not
after the end, the start is not before the business start date, the end is
not in the future, and the span is at most 730 days (dates as proleptic
ordinals; business_start is the parameter defaulted to 2024-04-01 in the
source, today is the wall-clock date). -/
theorem C5_validate_date_range (today business_start s e : ℤ) :
    validate_date_range today business_start s e = true ↔
      (s ≤ e ∧ business_start ≤ s ∧ e ≤ today ∧ e - s ≤ 730) := by
  unfold validate_date_range
  split_ifs <;> simp <;> omega

/-- C8: a raised exception or failed connection inside _execute_query yields
the empty list, and a get_sales_by_branch_data call whose every query raises
(modelled by an oracle that always returns an error) returns the all-zero
branch structure when the cache has no entry. -/
theorem C8_exception_fallbacks :
    (∀ err : String, execute_query (some (Except.error err)) = [])
    ∧ execute_query none = []
    ∧ (∀ (m : SalesTypeMap) (st : ProcCache) (now : ℤ) (s e : PyDate) (err : String),
        (∀ k, st.data_cache k = none) →
        (get_sales_by_branch_data m (fun _ _ => some (Except.error err)) st now s e).1
          = empty_branch_data) := by
  refine ⟨fun _ => rfl, rfl, ?_⟩
  intro m st now s e err hfresh
  unfold get_sales_by_branch_data
  rw [if_neg (by simp [is_cache_valid, hfresh])]
  by_cases hse : s = e <;>
    simp [hse, execute_query, process_branch_sales_data]

/-- C8 witness: concrete instances of the three fallbacks. -/
theorem C8_exception_fallbacks_witness :
    execute_query (some (Except.error "connection lost")) = []
    ∧ execute_query none = []
    ∧ (get_sales_by_branch_data fallback_sales_type_map
        (fun _ _ => some (Except.error "connection lost"))
        ⟨fun _ => none, fun _ => none⟩ 0 ⟨2024, 5, 1⟩ ⟨2024, 5, 2⟩).1 = empty_branch_data :=
  ⟨C8_exception_fallbacks.1 "connection lost", C8_exception_fallbacks.2.1,
    C8_exception_fallbacks.2.2 fallback_sales_type_map ⟨fun _ => none, fun _ => none⟩
      0 ⟨2024, 5, 1⟩ ⟨2024, 5, 2⟩ "connection lost" (fun _ => rfl)⟩

/-! ### Concrete evaluations of the decimal rounding -/

theorem decAdd_zero_zero : decAdd 0 0 = 0 := by
  unfold decAdd
  norm_num [decRound_zero]

theorem decDiv_zero_num (b : ℚ) : decDiv 0 b = 0 := by
  unfold decDiv
  norm_num [decRound_zero]

theorem decRound_one : decRound 1 = 1 :=
  decRound_fix 1 1000000000 0 (by norm_num) (by norm_num) (by norm_num)

theorem decRound_ten_pow10 : decRound 10000000000 = 10000000000 :=
  decRound_fix 10000000000 1000000000 10 (by norm_num) (by norm_num) (by norm_num)

theorem decRound_ten_pow10_succ : decRound 10000000001 = 10000000000 := by
  have h := decRound_down 10000000001 10 1000000000 (by norm_num) (by norm_num)
    (by norm_num) (by norm_num) (by norm_num)
  rw [h]
  norm_num

theorem decRound_onenineteen : decRound 119 = 119 :=
  decRound_fix 119 1190000000 2 (by norm_num) (by norm_num) (by norm_num)

theorem decRound_thirty : decRound 30 = 30 :=
  decRound_fix 30 3000000000 1 (by norm_num) (by norm_num) (by norm_num)

theorem decRound_hundred : decRound 100 = 100 :=
  decRound_fix 100 1000000000 2 (by norm_num) (by norm_num) (by norm_num)

theorem decRound_point015 : decRound (3/200) = 3/200 :=
  decRound_fix (3/200) 1500000000 (-2) (by norm_num)
    (by rw [abs_of_pos (by norm_num : (0:ℚ) < 3/200)]; norm_num)
    (by rw [abs_of_pos (by norm_num : (0:ℚ) < 3/200)]; norm_num)

theorem decRound_point19 : decRound (19/100) = 19/100 :=
  decRound_fix (19/100) 1900000000 (-1) (by norm_num)
    (by rw [abs_of_pos (by norm_num : (0:ℚ) < 19/100)]; norm_num)
    (by rw [abs_of_pos (by norm_num : (0:ℚ) < 19/100)]; norm_num)

/-! ### Cache behaviour of get_sales_by_branch_data -/

theorem get_sales_miss (m : SalesTypeMap)
    (db : String → List SqlParam → Option (Except String (List SalesRecord)))
    (st : ProcCache) (now : ℤ) (s e : PyDate)
    (hmiss : is_cache_valid st now
      ("branch_sales_" ++ pyDateStr s ++ "_" ++ pyDateStr e) = false) :
    get_sales_by_branch_data m db st now s e
      = (process_branch_sales_data m
          (execute_query
            (if s = e then db (branchSalesQuery ("Fecha = %s")) [SqlParam.date s]
              else db (branchSalesQuery ("Fecha BETWEEN %s AND %s"))
                [SqlParam.date s, SqlParam.date e])),
        ⟨fun k => if k = "branch_sales_" ++ pyDateStr s ++ "_" ++ pyDateStr e then
            some (process_branch_sales_data m
              (execute_query
                (if s = e then db (branchSalesQuery ("Fecha = %s")) [SqlParam.date s]
                  else db (branchSalesQuery ("Fecha BETWEEN %s AND %s"))
                    [SqlParam.date s, SqlParam.date e])))
          else st.data_cache k,
          fun k => if k = "branch_sales_" ++ pyDateStr s ++ "_" ++ pyDateStr e then some now
          else st.last_cache_update k⟩) := by
  unfold get_sales_by_branch_data
  rw [if_neg (by simp [hmiss])]

theorem get_sales_hit (m : SalesTypeMap)
    (db : String → List SqlParam → Option (Except String (List SalesRecord)))
    (st : ProcCache) (now : ℤ) (s e : PyDate)
    (hhit : is_cache_valid st now
      ("branch_sales_" ++ pyDateStr s ++ "_" ++ pyDateStr e) = true) :
    get_sales_by_branch_data m db st now s e
      = ((st.data_cache ("branch_sales_" ++ pyDateStr s ++ "_" ++ pyDateStr e)).getD
          empty_branch_data, st) := by
  unfold get_sales_by_branch_data
  rw [if_pos hhit]

/-- C4: the time-to-live check of _is_cache_valid uses the seconds attribute
of the elapsed timedelta, which wraps around at whole days. A first call at
time 0 (with a database returning one Osorno row) stores a nonempty result;
a second call exactly 86400 seconds (one full day) later — far beyond the
300-second time-to-live — still serves the stale cached value instead of
recomputing (the recomputation, whose database now returns no rows, would
give the all-zero structure). -/
theorem C4_cache_ttl_bug :
    (get_sales_by_branch_data fallback_sales_type_map (fun _ _ => some (Except.ok []))
        (get_sales_by_branch_data fallback_sales_type_map
          (fun _ _ => some (Except.ok [⟨"Osorno", "Pellet Bolsa 15 Kg (Retiro)", 0, 1, 0, 0⟩]))
          ⟨fun _ => none, fun _ => none⟩ 0 ⟨2024, 5, 1⟩ ⟨2024, 5, 2⟩).2
        86400 ⟨2024, 5, 1⟩ ⟨2024, 5, 2⟩).1
      = (get_sales_by_branch_data fallback_sales_type_map
          (fun _ _ => some (Except.ok [⟨"Osorno", "Pellet Bolsa 15 Kg (Retiro)", 0, 1, 0, 0⟩]))
          ⟨fun _ => none, fun _ => none⟩ 0 ⟨2024, 5, 1⟩ ⟨2024, 5, 2⟩).1
    ∧ (get_sales_by_branch_data fallback_sales_type_map
          (fun _ _ => some (Except.ok [⟨"Osorno", "Pellet Bolsa 15 Kg (Retiro)", 0, 1, 0, 0⟩]))
          ⟨fun _ => none, fun _ => none⟩ 0 ⟨2024, 5, 1⟩ ⟨2024, 5, 2⟩).1 ≠ empty_branch_data
    ∧ process_branch_sales_data fallback_sales_type_map [] = empty_branch_data
    ∧ ¬ ((86400 : ℤ) - 0 < 300) := by
  have hmiss : is_cache_valid ⟨fun _ => none, fun _ => none⟩ 0
      ("branch_sales_" ++ pyDateStr ⟨2024, 5, 1⟩ ++ "_" ++ pyDateStr ⟨2024, 5, 2⟩) = false := by
    simp [is_cache_valid]
  have h1 := get_sales_miss fallback_sales_type_map
    (fun _ _ => some (Except.ok [⟨"Osorno", "Pellet Bolsa 15 Kg (Retiro)", 0, 1, 0, 0⟩]))
    ⟨fun _ => none, fun _ => none⟩ 0 ⟨2024, 5, 1⟩ ⟨2024, 5, 2⟩ hmiss
  have hne : (⟨2024, 5, 1⟩ : PyDate) = ⟨2024, 5, 2⟩ ↔ False := by
    constructor
    · intro h
      exact absurd h (by decide)
    · intro h
      exact absurd h (by decide)
  have hP : (get_sales_by_branch_data fallback_sales_type_map
      (fun _ _ => some (Except.ok [⟨"Osorno", "Pellet Bolsa 15 Kg (Retiro)", 0, 1, 0, 0⟩]))
      ⟨fun _ => none, fun _ => none⟩ 0 ⟨2024, 5, 1⟩ ⟨2024, 5, 2⟩).1
      = process_branch_sales_data fallback_sales_type_map
          [⟨"Osorno", "Pellet Bolsa 15 Kg (Retiro)", 0, 1, 0, 0⟩] := by
    rw [h1]
    simp [hne, execute_query]
  have hst : get_sales_type fallback_sales_type_map "Pellet Bolsa 15 Kg (Retiro)" = "Local" := by
    decide
  have hPval : (process_branch_sales_data fallback_sales_type_map
      [⟨"Osorno", "Pellet Bolsa 15 Kg (Retiro)", 0, 1, 0, 0⟩]).osorno.ventaLocal.cantidad
      = 1 := by
    simp [process_branch_sales_data, branchStepWith, hst, bucketStep, empty_branch_data]
    unfold decAdd
    norm_num [decRound_one]
  refine ⟨?_, ?_, rfl, by norm_num⟩
  · rw [h1]
    have hhit : is_cache_valid
        ⟨fun k => if k = "branch_sales_" ++ pyDateStr ⟨2024, 5, 1⟩ ++ "_" ++ pyDateStr ⟨2024, 5, 2⟩ then
            some (process_branch_sales_data fallback_sales_type_map
              (execute_query
                (if (⟨2024, 5, 1⟩ : PyDate) = ⟨2024, 5, 2⟩ then
                  (fun _ _ => some (Except.ok [⟨"Osorno", "Pellet Bolsa 15 Kg (Retiro)", 0, 1, 0, 0⟩]))
                    (branchSalesQuery ("Fecha = %s")) [SqlParam.date ⟨2024, 5, 1⟩]
                  else (fun _ _ => some (Except.ok [⟨"Osorno", "Pellet Bolsa 15 Kg (Retiro)", 0, 1, 0, 0⟩]))
                    (branchSalesQuery ("Fecha BETWEEN %s AND %s"))
                    [SqlParam.date ⟨2024, 5, 1⟩, SqlParam.date ⟨2024, 5, 2⟩])))
          else (none : Option BranchSales),
          fun k => if k = "branch_sales_" ++ pyDateStr ⟨2024, 5, 1⟩ ++ "_" ++ pyDateStr ⟨2024, 5, 2⟩ then
            some (0 : ℤ)
          else none⟩ 86400
        ("branch_sales_" ++ pyDateStr ⟨2024, 5, 1⟩ ++ "_" ++ pyDateStr ⟨2024, 5, 2⟩) = true := by
      simp [is_cache_valid]
    rw [get_sales_hit _ _ _ _ _ _ hhit]
    simp
  · rw [hP]
    intro h
    have h2 := congrArg (fun b => b.osorno.ventaLocal.cantidad) h
    simp only [] at h2
    rw [hPval] at h2
    simp [empty_branch_data] at h2

/-! ### Monthly aggregation month window -/

/-- C9: on a fresh cache, get_monthly_sales_by_branch_data iterates exactly
the months start_month .. end_month of the start year: a range whose end
month number is below its start month number (such as November to February
across a year boundary) aggregates nothing and returns the all-zero
structure, and the result never depends on the year or day of the end
date (for a well-formed end month). -/
theorem C9_monthly_month_window (m : SalesTypeMap)
    (db : String → List SqlParam → Option (Except String (List SalesRecord)))
    (st : ProcCache) (now : ℤ) (s e : PyDate)
    (hfresh : ∀ k, st.data_cache k = none) :
    (e.month < s.month →
      (get_monthly_sales_by_branch_data m db st now s e).1 = empty_branch_data)
    ∧ (e.month ≤ 12 → ∀ y' : ℤ, ∀ dd : ℕ,
        (get_monthly_sales_by_branch_data m db st now s e).1
          = (get_monthly_sales_by_branch_data m db st now s ⟨y', e.month, dd⟩).1) := by
  have hmiss : ∀ key, is_cache_valid st now key = false := fun key => by
    simp [is_cache_valid, hfresh]
  constructor
  · intro hlt
    unfold get_monthly_sales_by_branch_data
    rw [if_neg (by simp [hmiss])]
    have hmp : monthsProcessed s e = [] := by
      unfold monthsProcessed
      rw [show e.month + 1 - s.month = 0 by omega]
      rfl
    rw [hmp]
    rfl
  · intro h12 y' dd
    unfold get_monthly_sales_by_branch_data
    rw [if_neg (by simp [hmiss]), if_neg (by simp [hmiss])]
    have hmp : monthsProcessed s ⟨y', e.month, dd⟩ = monthsProcessed s e := by
      unfold monthsProcessed
      rw [show ({ year := y', month := e.month, day := dd } : PyDate).month = e.month from rfl,
        show ({ year := y', month := e.month, day := dd } : PyDate).year = y' from rfl]
      rw [List.takeWhile_eq_self_iff.mpr ?_, List.takeWhile_eq_self_iff.mpr ?_]
      · intro mo hmo
        rw [List.mem_range'_1] at hmo
        have hd : decide (mo > 12) = false := by
          simp
          omega
        simp [hd]
      · intro mo hmo
        rw [List.mem_range'_1] at hmo
        have hd : decide (mo > 12) = false := by
          simp
          omega
        simp [hd]
    rw [hmp]

/-- C9 witness: a November 2024 to February 2025 range yields the all-zero
structure, and changing the end year (and day) leaves the result
unchanged. -/
theorem C9_monthly_month_window_witness :
    ((get_monthly_sales_by_branch_data fallback_sales_type_map (fun _ _ => some (Except.ok []))
        ⟨fun _ => none, fun _ => none⟩ 0 ⟨2024, 11, 5⟩ ⟨2025, 2, 10⟩).1 = empty_branch_data)
    ∧ ((get_monthly_sales_by_branch_data fallback_sales_type_map (fun _ _ => some (Except.ok []))
        ⟨fun _ => none, fun _ => none⟩ 0 ⟨2024, 11, 5⟩ ⟨2025, 2, 10⟩).1
      = (get_monthly_sales_by_branch_data fallback_sales_type_map (fun _ _ => some (Except.ok []))
        ⟨fun _ => none, fun _ => none⟩ 0 ⟨2024, 11, 5⟩ ⟨1999, 2, 28⟩).1) :=
  ⟨(C9_monthly_month_window fallback_sales_type_map (fun _ _ => some (Except.ok []))
      ⟨fun _ => none, fun _ => none⟩ 0 ⟨2024, 11, 5⟩ ⟨2025, 2, 10⟩ (fun _ => rfl)).1
      (by norm_num),
    (C9_monthly_month_window fallback_sales_type_map (fun _ _ => some (Except.ok []))
      ⟨fun _ => none, fun _ => none⟩ 0 ⟨2024, 11, 5⟩ ⟨2025, 2, 10⟩ (fun _ => rfl)).2
      (by norm_num) 1999 28⟩

/-! ### Exact branch aggregation: additivity and permutation invariance -/

theorem bucket_add_comm (a b : Bucket) : a.add b = b.add a := by
  ext <;> simp [Bucket.add] <;> ring

theorem bucket_add_assoc (a b c : Bucket) : (a.add b).add c = a.add (b.add c) := by
  ext <;> simp [Bucket.add] <;> ring

theorem branchSales_add_comm (a b : BranchSales) : a.add b = b.add a := by
  ext <;> simp [BranchSales.add, BranchBuckets.add, Bucket.add] <;> ring

theorem branchSales_add_assoc (a b c : BranchSales) :
    (a.add b).add c = a.add (b.add c) := by
  ext <;> simp [BranchSales.add, BranchBuckets.add, Bucket.add] <;> ring

theorem branchSales_add_empty (a : BranchSales) : a.add empty_branch_data = a := by
  ext <;> simp [BranchSales.add, BranchBuckets.add, Bucket.add, empty_branch_data]

theorem branchSales_empty_add (a : BranchSales) : empty_branch_data.add a = a := by
  ext <;> simp [BranchSales.add, BranchBuckets.add, Bucket.add, empty_branch_data]

theorem stepExact_delta (m : SalesTypeMap) (st : BranchSales) (r : SalesRecord) :
    branchStepWith bucketStepExact m st r
      = st.add (branchStepWith bucketStepExact m empty_branch_data r) := by
  unfold branchStepWith
  split_ifs <;> ext <;>
    simp [bucketStepExact, BranchSales.add, BranchBuckets.add, Bucket.add,
      empty_branch_data]

theorem stepExact_rightcomm (m : SalesTypeMap) (st : BranchSales) (a b : SalesRecord) :
    branchStepWith bucketStepExact m (branchStepWith bucketStepExact m st a) b
      = branchStepWith bucketStepExact m (branchStepWith bucketStepExact m st b) a := by
  rw [stepExact_delta m (branchStepWith bucketStepExact m st a) b,
    stepExact_delta m st a,
    stepExact_delta m (branchStepWith bucketStepExact m st b) a,
    stepExact_delta m st b,
    branchSales_add_assoc, branchSales_add_assoc,
    branchSales_add_comm (branchStepWith bucketStepExact m empty_branch_data a)
      (branchStepWith bucketStepExact m empty_branch_data b)]

theorem foldl_stepExact_init (m : SalesTypeMap) (l : List SalesRecord) :
    ∀ init : BranchSales,
      l.foldl (branchStepWith bucketStepExact m) init
        = init.add (l.foldl (branchStepWith bucketStepExact m) empty_branch_data) := by
  induction l with
  | nil => intro init; simp [branchSales_add_empty]
  | cons a t ih =>
    intro init
    simp only [List.foldl_cons]
    rw [ih (branchStepWith bucketStepExact m init a),
      ih (branchStepWith bucketStepExact m empty_branch_data a),
      stepExact_delta m init a, branchSales_add_assoc]

theorem foldl_branchAdd_init (l : List BranchSales) :
    ∀ z : BranchSales,
      l.foldl BranchSales.add z
        = z.add (l.foldl BranchSales.add empty_branch_data) := by
  induction l with
  | nil => intro z; simp [branchSales_add_empty]
  | cons a t ih =>
    intro z
    simp only [List.foldl_cons]
    rw [ih (z.add a), ih (empty_branch_data.add a), branchSales_empty_add,
      branchSales_add_assoc]

theorem processExact_eq_sum (m : SalesTypeMap) (l : List SalesRecord) :
    process_branch_sales_dataExact m l
      = (l.map (fun r => process_branch_sales_dataExact m [r])).foldl
          BranchSales.add empty_branch_data := by
  induction l with
  | nil => rfl
  | cons a t ih =>
    unfold process_branch_sales_dataExact at *
    simp only [List.foldl_cons, List.foldl_nil, List.map_cons] at ih ⊢
    rw [foldl_stepExact_init m t (branchStepWith bucketStepExact m empty_branch_data a), ih,
      foldl_branchAdd_init
        (List.map (fun r => branchStepWith bucketStepExact m empty_branch_data r) t)
        (empty_branch_data.add (branchStepWith bucketStepExact m empty_branch_data a)),
      branchSales_empty_add]

/-- C3 (amended): in exact (unrounded) arithmetic the per-branch
per-sales-type aggregation of _process_branch_sales_data is
permutation-invariant and equals the bucket-wise sum of each record's
individual contribution. -/
theorem C3_exact_aggregation (m : SalesTypeMap) :
    (∀ l1 l2 : List SalesRecord, l1.Perm l2 →
      process_branch_sales_dataExact m l1 = process_branch_sales_dataExact m l2)
    ∧ (∀ l : List SalesRecord,
      process_branch_sales_dataExact m l
        = (l.map (fun r => process_branch_sales_dataExact m [r])).foldl
            BranchSales.add empty_branch_data) := by
  constructor
  · intro l1 l2 hp
    unfold process_branch_sales_dataExact
    haveI : RightCommutative (branchStepWith bucketStepExact m) :=
      ⟨fun st a b => stepExact_rightcomm m st a b⟩
    exact hp.foldl_eq empty_branch_data
  · exact processExact_eq_sum m

/-- C3 witness: a concrete transposition of two Osorno records leaves the
exact aggregation unchanged. -/
theorem C3_exact_aggregation_witness :
    process_branch_sales_dataExact fallback_sales_type_map
        [⟨"Osorno", "Pellet Bolsa 15 Kg (Retiro)", 30, 2, 119, 100⟩,
          ⟨"La Unión", "Pellet Bolsa 15 Kg (Distribuidor)", 15, 1, 238, 200⟩]
      = process_branch_sales_dataExact fallback_sales_type_map
        [⟨"La Unión", "Pellet Bolsa 15 Kg (Distribuidor)", 15, 1, 238, 200⟩,
          ⟨"Osorno", "Pellet Bolsa 15 Kg (Retiro)", 30, 2, 119, 100⟩] :=
  (C3_exact_aggregation fallback_sales_type_map).1 _ _
    (List.Perm.swap
      (⟨"La Unión", "Pellet Bolsa 15 Kg (Distribuidor)", 15, 1, 238, 200⟩ : SalesRecord)
      (⟨"Osorno", "Pellet Bolsa 15 Kg (Retiro)", 30, 2, 119, 100⟩ : SalesRecord) [])

/-- C3 counterexample: under the 10-significant-digit decimal context the
aggregation is not order-independent. Three Osorno rows with total_neto
values 10^10, 1 and -10^10 (the middle one a sale, the last a credit-note
scale reversal) give a total_neto of 0 in one order — the intermediate sum
10^10 + 1 has 11 significant digits and rounds back down to 10^10 — and of
1 in the transposed order. -/
theorem C3_counterexample :
    ([⟨"Osorno", "Pellet Bolsa 15 Kg (Retiro)", 0, 0, 0, 10000000000⟩,
        ⟨"Osorno", "Pellet Bolsa 15 Kg (Retiro)", 0, 0, 0, 1⟩,
        ⟨"Osorno", "Pellet Bolsa 15 Kg (Retiro)", 0, 0, 0, -10000000000⟩] : List SalesRecord).Perm
      [⟨"Osorno", "Pellet Bolsa 15 Kg (Retiro)", 0, 0, 0, 10000000000⟩,
        ⟨"Osorno", "Pellet Bolsa 15 Kg (Retiro)", 0, 0, 0, -10000000000⟩,
        ⟨"Osorno", "Pellet Bolsa 15 Kg (Retiro)", 0, 0, 0, 1⟩]
    ∧ process_branch_sales_data fallback_sales_type_map
        [⟨"Osorno", "Pellet Bolsa 15 Kg (Retiro)", 0, 0, 0, 10000000000⟩,
          ⟨"Osorno", "Pellet Bolsa 15 Kg (Retiro)", 0, 0, 0, 1⟩,
          ⟨"Osorno", "Pellet Bolsa 15 Kg (Retiro)", 0, 0, 0, -10000000000⟩]
      ≠ process_branch_sales_data fallback_sales_type_map
        [⟨"Osorno", "Pellet Bolsa 15 Kg (Retiro)", 0, 0, 0, 10000000000⟩,
          ⟨"Osorno", "Pellet Bolsa 15 Kg (Retiro)", 0, 0, 0, -10000000000⟩,
          ⟨"Osorno", "Pellet Bolsa 15 Kg (Retiro)", 0, 0, 0, 1⟩] := by
  have hst : get_sales_type fallback_sales_type_map "Pellet Bolsa 15 Kg (Retiro)" = "Local" := by
    decide
  have hOL : ∀ (st : BranchSales) (q : ℚ),
      branchStepWith bucketStep fallback_sales_type_map st
        ⟨"Osorno", "Pellet Bolsa 15 Kg (Retiro)", 0, 0, 0, q⟩
      = ⟨⟨bucketStep st.osorno.ventaLocal
            ⟨"Osorno", "Pellet Bolsa 15 Kg (Retiro)", 0, 0, 0, q⟩,
          st.osorno.ventaDistribuidor⟩, st.union⟩ := by
    intro st q
    unfold branchStepWith
    rw [hst]
    simp
  have e1 : decAdd 0 10000000000 = 10000000000 := by
    unfold decAdd
    norm_num [decRound_ten_pow10]
  have e2 : decAdd 10000000000 1 = 10000000000 := by
    unfold decAdd
    norm_num [decRound_ten_pow10_succ]
  have e3 : decAdd 10000000000 (-10000000000) = 0 := by
    unfold decAdd
    norm_num [decRound_zero]
  have e4 : decAdd 0 1 = 1 := by
    unfold decAdd
    norm_num [decRound_one]
  have hrun1 : process_branch_sales_data fallback_sales_type_map
      [⟨"Osorno", "Pellet Bolsa 15 Kg (Retiro)", 0, 0, 0, 10000000000⟩,
        ⟨"Osorno", "Pellet Bolsa 15 Kg (Retiro)", 0, 0, 0, 1⟩,
        ⟨"Osorno", "Pellet Bolsa 15 Kg (Retiro)", 0, 0, 0, -10000000000⟩]
      = empty_branch_data := by
    simp only [process_branch_sales_data, List.foldl_cons, List.foldl_nil]
    rw [hOL, hOL, hOL]
    simp [bucketStep, empty_branch_data, decDiv_zero_num, decAdd_zero_zero, e1, e2, e3]
  have hrun2 : (process_branch_sales_data fallback_sales_type_map
      [⟨"Osorno", "Pellet Bolsa 15 Kg (Retiro)", 0, 0, 0, 10000000000⟩,
        ⟨"Osorno", "Pellet Bolsa 15 Kg (Retiro)", 0, 0, 0, -10000000000⟩,
        ⟨"Osorno", "Pellet Bolsa 15 Kg (Retiro)", 0, 0, 0, 1⟩]).osorno.ventaLocal.total_neto
      = 1 := by
    simp only [process_branch_sales_data, List.foldl_cons, List.foldl_nil]
    rw [hOL, hOL, hOL]
    simp [bucketStep, decDiv_zero_num, decAdd_zero_zero, e1, e3, e4, empty_branch_data]
  refine ⟨List.Perm.cons _ (List.Perm.swap _ _ _), ?_⟩
  rw [hrun1]
  intro h
  have h2 := congrArg (fun b => b.osorno.ventaLocal.total_neto) h.symm
  simp only [] at h2
  rw [hrun2] at h2
  simp [empty_branch_data] at h2

/-! ### Daily summary: unit and tax conversions -/

theorem applyDailyMetrics_sound (rate : ℚ) (en : ProductEntry) :
    (applyDailyMetrics rate en).toneladas = decDiv (applyDailyMetrics rate en).kilos 1000
    ∧ (applyDailyMetrics rate en).total_neto
        = decDiv (applyDailyMetrics rate en).total_bruto (119/100) := by
  simp [applyDailyMetrics]

theorem lookup_map_metrics (rate : ℚ) (l : List (String × ProductEntry))
    (p : String) (en : ProductEntry)
    (h : (l.map (fun kv => (kv.1, applyDailyMetrics rate kv.2))).lookup p = some en) :
    ∃ en0, en = applyDailyMetrics rate en0 := by
  induction l with
  | nil => simp at h
  | cons kv t ih =>
    rw [List.map_cons] at h
    cases hbe : (p == kv.1) with
    | true =>
      refine ⟨kv.2, ?_⟩
      simp [List.lookup, hbe] at h
      exact h.symm
    | false =>
      apply ih
      simpa [List.lookup, hbe] using h

theorem lookup_singleton {k p : String} {v en : ProductEntry}
    (h : List.lookup p [(k, v)] = some en) : en = v := by
  cases hbe : (p == k) with
  | true =>
    simp [List.lookup, hbe] at h
    exact h.symm
  | false =>
    simp [List.lookup, hbe] at h

theorem lookup_append_cases {l1 l2 : List (String × ProductEntry)} {p : String}
    {en : ProductEntry} (h : (l1 ++ l2).lookup p = some en) :
    l1.lookup p = some en ∨ l2.lookup p = some en := by
  rw [List.lookup_append] at h
  rcases ho : l1.lookup p with _ | v
  · rw [ho] at h
    simp at h
    exact Or.inr h
  · rw [ho] at h
    simp at h
    subst h
    exact Or.inl rfl

theorem lookup_addCategory (rate : ℚ) (cats : ProductCategories)
    (s : List (String × ProductEntry)) (p : String) (en : ProductEntry)
    (h : (add_category_totals rate cats s).lookup p = some en) :
    s.lookup p = some en ∨ ∃ en0, en = applyDailyMetrics rate en0 := by
  unfold add_category_totals at h
  split_ifs at h
  · rcases lookup_append_cases h with h1 | h2
    · rcases lookup_append_cases h1 with h3 | h4
      · exact Or.inl h3
      · exact Or.inr ⟨_, lookup_singleton h4⟩
    · exact Or.inr ⟨_, lookup_singleton h2⟩
  · rcases lookup_append_cases h with h1 | h2
    · exact Or.inl h1
    · exact Or.inr ⟨_, lookup_singleton h2⟩
  · rcases lookup_append_cases h with h1 | h2
    · exact Or.inl h1
    · exact Or.inr ⟨_, lookup_singleton h2⟩
  · exact Or.inl h

/-- C7: in every summary produced by process_daily_sales_summary (ordinary
products and the appended category totals alike) the toneladas field is the
decimal quotient of the accumulated kilos by 1000 and the total_neto field is
the decimal quotient of the accumulated total_bruto by 1.19; and in
_process_branch_sales_data each matching record adds the decimal quotient of
its kilos by 1000 to the toneladas total of its branch and sales type. -/
theorem C7_unit_conversions :
    (∀ (rate : ℚ) (cats : ProductCategories) (raw : List DailyRecord)
        (p : String) (en : ProductEntry),
      (process_daily_sales_summary rate cats raw).lookup p = some en →
        en.toneladas = decDiv en.kilos 1000
        ∧ en.total_neto = decDiv en.total_bruto (119/100))
    ∧ (∀ (m : SalesTypeMap) (st : BranchSales) (r : SalesRecord),
        (get_sales_type m r.Articulo = "Local" → r.PuntoVenta = "Osorno" →
          (branchStepWith bucketStep m st r).osorno.ventaLocal.toneladas
            = decAdd st.osorno.ventaLocal.toneladas (decDiv r.total_kilos 1000))
        ∧ (get_sales_type m r.Articulo = "Local" → r.PuntoVenta = "La Unión" →
          (branchStepWith bucketStep m st r).union.ventaLocal.toneladas
            = decAdd st.union.ventaLocal.toneladas (decDiv r.total_kilos 1000))
        ∧ (get_sales_type m r.Articulo = "Distribuidor" → r.PuntoVenta = "Osorno" →
          (branchStepWith bucketStep m st r).osorno.ventaDistribuidor.toneladas
            = decAdd st.osorno.ventaDistribuidor.toneladas (decDiv r.total_kilos 1000))
        ∧ (get_sales_type m r.Articulo = "Distribuidor" → r.PuntoVenta = "La Unión" →
          (branchStepWith bucketStep m st r).union.ventaDistribuidor.toneladas
            = decAdd st.union.ventaDistribuidor.toneladas (decDiv r.total_kilos 1000))) := by
  constructor
  · intro rate cats raw p en h
    unfold process_daily_sales_summary at h
    split_ifs at h with hrate
    · simp at h
    · rcases lookup_addCategory rate cats _ p en h with hs | ⟨en0, rfl⟩
      · rcases lookup_map_metrics rate _ p en hs with ⟨en0, rfl⟩
        exact applyDailyMetrics_sound rate en0
      · exact applyDailyMetrics_sound rate en0
  · intro m st r
    refine ⟨?_, ?_, ?_, ?_⟩
    · intro hL hB
      unfold branchStepWith
      rw [hL, hB, if_pos rfl, if_pos rfl]
      simp [bucketStep]
    · intro hL hB
      unfold branchStepWith
      rw [hL, hB, if_pos rfl, if_neg (by decide), if_pos rfl]
      simp [bucketStep]
    · intro hD hB
      unfold branchStepWith
      rw [hD, hB, if_neg (by decide), if_pos rfl, if_pos rfl]
      simp [bucketStep]
    · intro hD hB
      unfold branchStepWith
      rw [hD, hB, if_neg (by decide), if_pos rfl, if_neg (by decide), if_pos rfl]
      simp [bucketStep]

theorem decRound_point03 : decRound (3/100) = 3/100 :=
  decRound_fix (3/100) 3000000000 (-2) (by norm_num)
    (by rw [abs_of_pos (by norm_num : (0:ℚ) < 3/100)]; norm_num)
    (by rw [abs_of_pos (by norm_num : (0:ℚ) < 3/100)]; norm_num)

/-- C7 witness: one concrete record (2 bags, 30 kg, gross 119) yields the
summary entry whose toneladas and total_neto fields satisfy the conversions,
and each of the four branch/sales-type cases adds kilos / 1000 to its
toneladas total. -/
theorem C7_unit_conversions_witness :
    ((⟨2, 119, 30, "units", 100, 119, 3/100⟩ : ProductEntry).toneladas
        = decDiv (⟨2, 119, 30, "units", 100, 119, 3/100⟩ : ProductEntry).kilos 1000
      ∧ (⟨2, 119, 30, "units", 100, 119, 3/100⟩ : ProductEntry).total_neto
        = decDiv (⟨2, 119, 30, "units", 100, 119, 3/100⟩ : ProductEntry).total_bruto (119/100))
    ∧ ((branchStepWith bucketStep fallback_sales_type_map empty_branch_data
        ⟨"Osorno", "Pellet Bolsa 15 Kg (Retiro)", 30, 1, 0, 0⟩).osorno.ventaLocal.toneladas
      = decAdd empty_branch_data.osorno.ventaLocal.toneladas (decDiv 30 1000))
    ∧ ((branchStepWith bucketStep fallback_sales_type_map empty_branch_data
        ⟨"La Unión", "Pellet Bolsa 15 Kg (Retiro)", 30, 1, 0, 0⟩).union.ventaLocal.toneladas
      = decAdd empty_branch_data.union.ventaLocal.toneladas (decDiv 30 1000))
    ∧ ((branchStepWith bucketStep fallback_sales_type_map empty_branch_data
        ⟨"Osorno", "Pellet Bolsa 15 Kg (Distribuidor)", 30, 1, 0, 0⟩).osorno.ventaDistribuidor.toneladas
      = decAdd empty_branch_data.osorno.ventaDistribuidor.toneladas (decDiv 30 1000))
    ∧ ((branchStepWith bucketStep fallback_sales_type_map empty_branch_data
        ⟨"La Unión", "Pellet Bolsa 15 Kg (Distribuidor)", 30, 1, 0, 0⟩).union.ventaDistribuidor.toneladas
      = decAdd empty_branch_data.union.ventaDistribuidor.toneladas (decDiv 30 1000)) := by
  have hb : decAdd 0 119 = 119 := by
    unfold decAdd
    norm_num [decRound_onenineteen]
  have hk : decAdd 0 30 = 30 := by
    unfold decAdd
    norm_num [decRound_thirty]
  have hn : decDiv 119 (119/100) = 100 := by
    unfold decDiv
    norm_num [decRound_hundred]
  have hd : decDiv 119 1 = 119 := by
    unfold decDiv
    norm_num [decRound_onenineteen]
  have ht : decDiv 30 1000 = 3/100 := by
    unfold decDiv
    norm_num [decRound_point03]
  have hlook : (process_daily_sales_summary 1 ⟨[], [], []⟩
      [⟨"Pellet Bolsa 15 Kg (Retiro)", 2, 119, some 30⟩]).lookup "Pellet Bolsa 15 Kg (Retiro)"
      = some ⟨2, 119, 30, "units", 100, 119, 3/100⟩ := by
    simp [process_daily_sales_summary, dailyStep, updAssoc, initEntry, applyDailyMetrics,
      add_category_totals, categoryTotal, List.lookup, hb, hk, hn, hd, ht]
  exact ⟨C7_unit_conversions.1 1 ⟨[], [], []⟩ _ _ _ hlook,
    (C7_unit_conversions.2 fallback_sales_type_map empty_branch_data _).1 (by decide) rfl,
    (C7_unit_conversions.2 fallback_sales_type_map empty_branch_data _).2.1 (by decide) rfl,
    (C7_unit_conversions.2 fallback_sales_type_map empty_branch_data _).2.2.1 (by decide) rfl,
    (C7_unit_conversions.2 fallback_sales_type_map empty_branch_data _).2.2.2 (by decide) rfl⟩

/-! ### Tax decomposition: inverse consistency within rounding tolerance -/

/-- C2: for every gross amount the tax decomposition is inverse-consistent
within rounding tolerance. For calculate_financial_metrics under the
10-digit decimal context (at the default rate 1.19 and any nonzero exchange
rate), neto * 1.19 and neto + iva both land within |amount| / 10^9 of the
gross amount; for the float computation of _calculate_financial_totals,
modelled with any per-operation rounding of relative error at most eps,
net * 1.19 and net + tax land within 2 * eps * |gross| of the gross
total. -/
theorem C2_tax_inverse_consistency :
    (∀ amount exchange_rate : ℚ, exchange_rate ≠ 0 →
      |(calculate_financial_metrics amount exchange_rate (119/100)).neto * (119/100) - amount|
          ≤ |amount| / 1000000000
      ∧ |(calculate_financial_metrics amount exchange_rate (119/100)).neto
          + (calculate_financial_metrics amount exchange_rate (119/100)).iva - amount|
          ≤ |amount| / 1000000000)
    ∧ (∀ (fl : ℚ → ℚ) (eps gross : ℚ), 0 ≤ eps → eps ≤ 1 →
        (∀ x, |fl x - x| ≤ eps * |x|) →
      |(financial_totals_net_tax fl gross).1 * (119/100) - gross| ≤ 2 * eps * |gross|
      ∧ |(financial_totals_net_tax fl gross).1 + (financial_totals_net_tax fl gross).2 - gross|
          ≤ 2 * eps * |gross|) := by
  constructor
  · intro amount rate hrate
    unfold calculate_financial_metrics
    rw [if_neg (by simp [hrate])]
    simp only [decDiv, decMul]
    have hsub : decSub (119/100) 1 = 19/100 := by
      unfold decSub
      norm_num [decRound_point19]
    rw [hsub]
    set q : ℚ := amount / (119/100) with hq
    set N : ℚ := decRound q with hN
    set I : ℚ := decRound (N * (19/100)) with hI
    have h1 : |N - q| ≤ |q| / 2000000000 := decRound_err q
    have h2 : |I - N * (19/100)| ≤ |N * (19/100)| / 2000000000 := decRound_err _
    have habs_q : |q| = |amount| * (100/119) := by
      rw [hq, abs_div, abs_of_pos (show (0:ℚ) < 119/100 by norm_num)]
      ring
    have habs2 : |N * (19/100)| = |N| * (19/100) := by
      rw [abs_mul, show |(19:ℚ)/100| = 19/100 from by norm_num]
    have hNb : |N| ≤ |q| + |q| / 2000000000 := by
      have := abs_sub_abs_le_abs_sub N q
      linarith
    have hgq : q * (119/100) = amount := by
      rw [hq]
      field_simp
    have key1 : |N * (119/100) - amount| = |N - q| * (119/100) := by
      rw [show N * (119/100) - amount = (N - q) * (119/100) by rw [← hgq]; ring,
        abs_mul, abs_of_pos (show (0:ℚ) < 119/100 by norm_num)]
    have ham : (0:ℚ) ≤ |amount| := abs_nonneg amount
    constructor
    · rw [key1]
      rw [habs_q] at h1
      linarith
    · have hdec : N + I - amount = (N * (119/100) - amount) + (I - N * (19/100)) := by
        ring
      calc |N + I - amount|
          ≤ |N * (119/100) - amount| + |I - N * (19/100)| := by
            rw [hdec]
            exact abs_add _ _
        _ ≤ |amount| / 1000000000 := by
            rw [key1]
            rw [habs2] at h2
            rw [habs_q] at h1 hNb
            linarith
  · intro fl eps gross heps0 heps1 hfl
    unfold financial_totals_net_tax
    set q : ℚ := gross / (119/100) with hq
    set N : ℚ := fl q with hN
    set T : ℚ := fl (N * (19/100)) with hT
    have A1 : |N - q| ≤ eps * |q| := hfl q
    have A2 : |T - N * (19/100)| ≤ eps * |N| * (19/100) := by
      have h := hfl (N * (19/100))
      rwa [abs_mul, show |(19:ℚ)/100| = 19/100 from by norm_num, ← mul_assoc] at h
    have A3 : |N| ≤ |q| + eps * |q| := by
      have := abs_sub_abs_le_abs_sub N q
      linarith
    have habs_q : |q| = |gross| * (100/119) := by
      rw [hq, abs_div, abs_of_pos (show (0:ℚ) < 119/100 by norm_num)]
      ring
    have hgq : q * (119/100) = gross := by
      rw [hq]
      field_simp
    have key1 : |N * (119/100) - gross| = |N - q| * (119/100) := by
      rw [show N * (119/100) - gross = (N - q) * (119/100) by rw [← hgq]; ring,
        abs_mul, abs_of_pos (show (0:ℚ) < 119/100 by norm_num)]
    have hg0 : (0:ℚ) ≤ |gross| := abs_nonneg gross
    have heg : (0:ℚ) ≤ eps * |gross| := mul_nonneg heps0 hg0
    have hqe : eps * |q| = (100/119) * (eps * |gross|) := by
      rw [habs_q]
      ring
    constructor
    · rw [key1]
      have : |N - q| * (119/100) ≤ (eps * |q|) * (119/100) := by
        exact mul_le_mul_of_nonneg_right A1 (by norm_num)
      rw [hqe] at this
      linarith
    · have hdec : N + T - gross = (N * (119/100) - gross) + (T - N * (19/100)) := by
        ring
      have step1 : |N + T - gross| ≤ |N * (119/100) - gross| + |T - N * (19/100)| := by
        rw [hdec]
        exact abs_add _ _
      have step2 : |N * (119/100) - gross| ≤ eps * |gross| := by
        rw [key1]
        have h3 : |N - q| * (119/100) ≤ (eps * |q|) * (119/100) :=
          mul_le_mul_of_nonneg_right A1 (by norm_num)
        rw [hqe] at h3
        linarith
      have step3 : eps * |N| ≤ eps * (|q| + eps * |q|) := mul_le_mul_of_nonneg_left A3 heps0
      have step4 : eps * (|q| + eps * |q|) ≤ 2 * (eps * |q|) := by
        have hpos : (0:ℚ) ≤ eps * |q| := mul_nonneg heps0 (abs_nonneg q)
        nlinarith [mul_nonneg (sub_nonneg.mpr heps1) hpos]
      have step5 : |T - N * (19/100)| ≤ (2 * (eps * |q|)) * (19/100) := by
        have : eps * |N| * (19/100) ≤ (2 * (eps * |q|)) * (19/100) := by
          have := step3.trans step4
          exact mul_le_mul_of_nonneg_right this (by norm_num)
        linarith
      rw [hqe] at step5
      linarith

/-- C2 witness: the decimal part at amount 119 and exchange rate 945, and the
float part with the identity rounding (relative error 0) at gross 119. -/
theorem C2_tax_inverse_consistency_witness :
    (|(calculate_financial_metrics 119 945 (119/100)).neto * (119/100) - 119| ≤ |(119:ℚ)| / 1000000000
      ∧ |(calculate_financial_metrics 119 945 (119/100)).neto
          + (calculate_financial_metrics 119 945 (119/100)).iva - 119| ≤ |(119:ℚ)| / 1000000000)
    ∧ (|(financial_totals_net_tax id 119).1 * (119/100) - 119| ≤ 2 * 0 * |(119:ℚ)|
      ∧ |(financial_totals_net_tax id 119).1 + (financial_totals_net_tax id 119).2 - 119|
          ≤ 2 * 0 * |(119:ℚ)|) :=
  ⟨C2_tax_inverse_consistency.1 119 945 (by norm_num),
    C2_tax_inverse_consistency.2 id 0 119 le_rfl (by norm_num)
      (fun x => by simp)⟩
